import Mathlib

/-!
Verification of the capability-negotiation core of the sufat repository
(src/render_context.rs), as a shallow embedding in Lean 4.

The embedding models:
* the missing-extension / missing-layer computation performed by
  RenderContext::new (required names diffed against the available names
  reported by the platform, by exact string comparison);
* the outcome decision (the four-row precedence table over the two
  emptiness flags, then instance creation, debug-sink attachment,
  self-test and surface creation);
* the severity-mask computation from the logging facility's configured
  maximum level (log::max_level() compared against log::Level);
* the native debug-message dispatcher vulkan_debug_callback and the
  startup self-test test_debug_callback;
* the Drop implementation (teardown order of the native destroy calls).

Native effects (Vulkan calls, the logger) are represented by explicit
environments, event traces and result values.
-/

namespace Sufat

/-! ## Logging model (the log crate's Level and LevelFilter) -/

/-- The log crate's Level: Error = 1 up to Trace = 5. -/
inductive Level where
  | error
  | warn
  | info
  | debug
  | trace
  deriving DecidableEq, Repr

/-- The log crate's LevelFilter: Off = 0 up to Trace = 5,
returned by log::max_level(). -/
inductive LevelFilter where
  | off
  | error
  | warn
  | info
  | debug
  | trace
  deriving DecidableEq, Repr

def Level.toNat : Level → Nat
  | .error => 1
  | .warn => 2
  | .info => 3
  | .debug => 4
  | .trace => 5

def LevelFilter.toNat : LevelFilter → Nat
  | .off => 0
  | .error => 1
  | .warn => 2
  | .info => 3
  | .debug => 4
  | .trace => 5

/-- The log crate's cross comparison LevelFilter >= Level, used by the
source as log_level >= Level::Error etc.; both sides compare by their
numeric repr. -/
def levelFilterGeLevel (f : LevelFilter) (l : Level) : Bool :=
  l.toNat ≤ f.toNat

/-! ## Native severity bitmask (DebugUtilsMessageSeverityFlagsEXT) -/

def SEVERITY_VERBOSE : Nat := 0x1
def SEVERITY_INFO : Nat := 0x10
def SEVERITY_WARNING : Nat := 0x100
def SEVERITY_ERROR : Nat := 0x1000

/-- The four defined native severity levels, ordered by rank from least
severe (verbose) to most severe (error). -/
inductive NativeSeverity where
  | verbose
  | info
  | warning
  | error
  deriving DecidableEq, Repr, Fintype

def NativeSeverity.flag : NativeSeverity → Nat
  | .verbose => SEVERITY_VERBOSE
  | .info => SEVERITY_INFO
  | .warning => SEVERITY_WARNING
  | .error => SEVERITY_ERROR

def NativeSeverity.rank : NativeSeverity → Nat
  | .verbose => 0
  | .info => 1
  | .warning => 2
  | .error => 3

/-- Whether a severity bitmask permits a given native severity level. -/
def maskPermits (mask : Nat) (s : NativeSeverity) : Bool :=
  mask &&& s.flag != 0

/-- The mask computation in RenderContext::new: starting from empty,
OR in ERROR when log_level >= Level::Error, WARNING when >= Level::Warn,
INFO when >= Level::Info, and VERBOSE when >= Level::Trace. -/
def debugMessengerLogLevel (f : LevelFilter) : Nat :=
  let m0 : Nat := 0
  let m1 := if levelFilterGeLevel f .error then m0 ||| SEVERITY_ERROR else m0
  let m2 := if levelFilterGeLevel f .warn then m1 ||| SEVERITY_WARNING else m1
  let m3 := if levelFilterGeLevel f .info then m2 ||| SEVERITY_INFO else m2
  if levelFilterGeLevel f .trace then m3 ||| SEVERITY_VERBOSE else m3

/-! ## Missing-set computation

RenderContext::new computes, for each required name, a linear scan over
the available names (find_map of an exact CStr comparison), keeps the
required names with no match (ok_or + filter_map err), in required-set
order. -/

/-- One required name checked against the available list: the source's
find_map over available names with an exact (case-sensitive) equality,
then ok_or(needle). -/
def matchRequired (needle : String) (available : List String) :
    Except String Unit :=
  match available.findSome? (fun a => if needle = a then some () else none) with
  | some _ => Except.ok ()
  | none => Except.error needle

/-- The missing list: map each required name through matchRequired and
keep the errors (the source's filter_map over i.err()). -/
def missingNames (required available : List String) : List String :=
  (required.map (fun needle => matchRequired needle available)).filterMap
    (fun r =>
      match r with
      | Except.ok _ => none
      | Except.error n => some n)

theorem matchRequired_eq (needle : String) (available : List String) :
    matchRequired needle available =
      (if available.contains needle then Except.ok () else
        Except.error needle) := by
  induction available with
  | nil => rfl
  | cons a as ih =>
    by_cases h : needle = a
    · simp [matchRequired, List.findSome?, h]
    · have hne : (needle == a) = false := by
        simp [h]
      simp only [matchRequired, List.findSome?] at *
      simp only [h, if_false, List.contains_cons, hne, Bool.false_or]
      exact ih

/-- The computed missing list is exactly the required list filtered down
to the names absent from the available list, order preserved. -/
theorem missingNames_eq_filter (required available : List String) :
    missingNames required available =
      required.filter (fun r => !(available.contains r)) := by
  induction required with
  | nil => rfl
  | cons r rs ih =>
    simp only [missingNames, List.map_cons, List.filterMap_cons] at *
    rw [matchRequired_eq]
    by_cases h : r ∈ available
    · simp [h, ih, List.filter_cons]
    · simp [h, ih, List.filter_cons]

/-! ## Data model for the negotiation sequence -/

/-- The error enum RenderContextError. -/
inductive RenderContextError where
  | MissingExtension
  | MissingLayer
  | MissingExtensionAndLayer
  | UnableToLoadLib
  | InstanceCreationFailed
  deriving DecidableEq, Repr

/-- One entry emitted through the logging facility. -/
structure LogEntry where
  level : Level
  text : String
  deriving DecidableEq, Repr

/-- The native-API steps the success path performs in order. -/
inductive Step where
  | createInstance
  | createDebugSink
  | selfTest
  | createSurface
  deriving DecidableEq, Repr

/-- Native resources that can be acquired during the sequence. -/
inductive Resource where
  | entryLib
  | vkInstance
  | debugMessenger
  | vkSurface
  deriving DecidableEq, Repr

/-- The model of the RenderContext struct: the only field the claims
depend on is the optional debug-messenger handle (debug_callback). -/
structure RenderContextM where
  debug_callback : Option Unit
  deriving DecidableEq, Repr

/-- How RenderContext::new terminates: Ok(context), Err(error), or a
process abort (the unwrap on surface creation panics). -/
inductive NewOutcome where
  | ok (ctx : RenderContextM)
  | err (e : RenderContextError)
  | aborted
  deriving DecidableEq, Repr

/-- The observable result of one run of RenderContext::new: the outcome,
the log entries it emitted, the native steps it reached, and the native
resources acquired but never released on exit (the leak set; resources
owned by a returned context are not leaked). -/
structure NewResult where
  outcome : NewOutcome
  logs : List LogEntry
  steps : List Step
  leaked : List Resource
  deriving DecidableEq, Repr

/-- The environment RenderContext::new runs in: what the native API and
the windowing system report and whether each fallible native call
succeeds. -/
structure Env where
  entryLoads : Bool
  instanceVersion : Option Nat
  surfaceExts : List String
  availExts : List String
  availLayers : List String
  instanceCreationOk : Bool
  sinkCreationOk : Bool
  surfaceCreationOk : Bool
  logFilter : LevelFilter
  deriving DecidableEq, Repr

def debugUtilsExtName : String := "VK_EXT_debug_utils"

def validationLayerName : String := "VK_LAYER_KHRONOS_validation"

/-- The fixed required layer set (debug_layer_names in the source). -/
def debugLayerNames : List String := [validationLayerName]

/-- required_extensions: the surface extensions demanded by the display
handle, with DebugUtils::name() pushed at the end. -/
def requiredExtensions (env : Env) : List String :=
  env.surfaceExts ++ [debugUtilsExtName]

/-- exts_missing in the source: required extensions with no exact match
among the available extension properties. -/
def extsMissingList (env : Env) : List String :=
  missingNames (requiredExtensions env) env.availExts

/-- layers_missing in the source: required layers with no exact match
among the available layer properties. -/
def layersMissingList (env : Env) : List String :=
  missingNames debugLayerNames env.availLayers

/-- vk::make_api_version. -/
def makeApiVersion (variant major minor patch : Nat) : Nat :=
  variant * 2 ^ 29 + major * 2 ^ 22 + minor * 2 ^ 12 + patch

def extMissingLog (n : String) : LogEntry :=
  ⟨Level.error, "Missing extension " ++ n⟩

def layerMissingLog (n : String) : LogEntry :=
  ⟨Level.error, "Missing layer " ++ n⟩

/-- RenderContext::new. Follows the source control flow: load the entry
point; compute the required extension list and diff it against the
available extensions, logging each missing name at error severity; diff
the fixed layer list against the available layers, logging likewise;
decide the outcome by the precedence chain (both missing, layers
missing, extensions missing, else proceed); create the instance; compute
the severity mask and attach the debug sink, discarding failure via ok();
run the self-test; create the surface, whose failure is an unwrap panic
that leaks the instance and any attached messenger. -/
def renderContextNew (env : Env) : NewResult :=
  if env.entryLoads = false then
    { outcome := .err .UnableToLoadLib, logs := [], steps := [], leaked := [] }
  else
    let _vk_version := env.instanceVersion.getD (makeApiVersion 0 1 0 0)
    let exts_missing_list := extsMissingList env
    let extLogs := exts_missing_list.map extMissingLog
    let exts_missing := exts_missing_list.length > 0
    let layers_missing_list := layersMissingList env
    let layerLogs := layers_missing_list.map layerMissingLog
    let layers_missing := layers_missing_list.length ≠ 0
    if layers_missing ∧ exts_missing then
      { outcome := .err .MissingExtensionAndLayer,
        logs := extLogs ++ layerLogs, steps := [], leaked := [] }
    else if layers_missing then
      { outcome := .err .MissingLayer,
        logs := extLogs ++ layerLogs, steps := [], leaked := [] }
    else if exts_missing then
      { outcome := .err .MissingExtension,
        logs := extLogs ++ layerLogs, steps := [], leaked := [] }
    else
      let logs1 := extLogs ++ layerLogs ++
        [⟨Level.debug, "Successfully found all layers"⟩]
      if env.instanceCreationOk = false then
        { outcome := .err .InstanceCreationFailed,
          logs := logs1 ++
            [⟨Level.error,
              "We got to creating an instance but it failedfor some reason"⟩],
          steps := [Step.createInstance], leaked := [] }
      else
        let logs2 := logs1 ++ [⟨Level.info, "Successfully created instance"⟩]
        let _debug_messenger_log_level := debugMessengerLogLevel env.logFilter
        let debug_callback : Option Unit :=
          if env.sinkCreationOk then some () else none
        if env.surfaceCreationOk = false then
          { outcome := .aborted,
            logs := logs2,
            steps := [Step.createInstance, Step.createDebugSink,
              Step.selfTest, Step.createSurface],
            leaked := Resource.vkInstance ::
              (match debug_callback with
               | some _ => [Resource.debugMessenger]
               | none => []) }
        else
          { outcome := .ok ⟨debug_callback⟩,
            logs := logs2,
            steps := [Step.createInstance, Step.createDebugSink,
              Step.selfTest, Step.createSurface],
            leaked := [] }

/-! ## Teardown (impl Drop for RenderContext) -/

/-- The three native destroy calls teardown can make. -/
inductive DestroyCall where
  | destroySink
  | destroySurface
  | destroyInstance
  deriving DecidableEq, Repr

/-- The Drop impl: map over the optional debug_callback to destroy the
messenger, then destroy the surface, then destroy the instance. -/
def renderContextDrop (ctx : RenderContextM) : List DestroyCall :=
  (match ctx.debug_callback with
   | some _ => [DestroyCall.destroySink]
   | none => []) ++
  [DestroyCall.destroySurface, DestroyCall.destroyInstance]

/-! ## The debug-message dispatcher and the startup self-test -/

/-- The three message-type categories used by the source. -/
inductive MessageType where
  | general
  | performance
  | validation
  deriving DecidableEq, Repr, Fintype

/-- A message submitted to the dispatcher: the native severity flag
value, the category, and the callback data fields (nullable strings
modelled as Options). -/
structure SubmittedMessage where
  severity : Nat
  mtype : MessageType
  idName : Option String
  idNumber : Int
  message : Option String
  deriving DecidableEq, Repr

/-- One log entry routed by the dispatcher, with the fields it carries
into the log call. -/
structure RoutedLogEntry where
  level : Level
  mtype : MessageType
  idName : String
  idNumber : Int
  message : String
  deriving DecidableEq, Repr

def vkFALSE : Nat := 0

/-- vulkan_debug_callback: null string fields become empty strings; the
match on the severity routes ERROR to log::error, WARNING to log::warn,
INFO to log::info, VERBOSE to log::trace, and any other value hits
unreachable (modelled as none, an abort); on the four defined values the
callback returns vk::FALSE. -/
def vulkan_debug_callback (m : SubmittedMessage) :
    Option (RoutedLogEntry × Nat) :=
  let message_id_name := m.idName.getD ""
  let message := m.message.getD ""
  if m.severity = SEVERITY_ERROR then
    some (⟨Level.error, m.mtype, message_id_name, m.idNumber, message⟩, vkFALSE)
  else if m.severity = SEVERITY_WARNING then
    some (⟨Level.warn, m.mtype, message_id_name, m.idNumber, message⟩, vkFALSE)
  else if m.severity = SEVERITY_INFO then
    some (⟨Level.info, m.mtype, message_id_name, m.idNumber, message⟩, vkFALSE)
  else if m.severity = SEVERITY_VERBOSE then
    some (⟨Level.trace, m.mtype, message_id_name, m.idNumber, message⟩, vkFALSE)
  else
    none

/-- test_debug_callback: one callback data (message "test", id name
"testing", id number 1) submitted four times, at severities ERROR,
WARNING, INFO, VERBOSE with types GENERAL, PERFORMANCE, VALIDATION,
GENERAL respectively. -/
def testDebugCallbackMessages : List SubmittedMessage :=
  [⟨SEVERITY_ERROR, .general, some "testing", 1, some "test"⟩,
   ⟨SEVERITY_WARNING, .performance, some "testing", 1, some "test"⟩,
   ⟨SEVERITY_INFO, .validation, some "testing", 1, some "test"⟩,
   ⟨SEVERITY_VERBOSE, .general, some "testing", 1, some "test"⟩]

/-! ## Concrete environments for witnesses -/

/-- An environment in which every native call succeeds and every
required name is available. -/
def envAllOk : Env :=
  { entryLoads := true
    instanceVersion := some (makeApiVersion 0 1 3 0)
    surfaceExts := ["VK_KHR_surface"]
    availExts := ["VK_KHR_surface", "VK_EXT_debug_utils"]
    availLayers := ["VK_LAYER_KHRONOS_validation"]
    instanceCreationOk := true
    sinkCreationOk := true
    surfaceCreationOk := true
    logFilter := LevelFilter.info }

/-- envAllOk, except the debug-utils extension is not available. -/
def envMissingExt : Env := { envAllOk with availExts := ["VK_KHR_surface"] }

/-- envAllOk, except no layer is available. -/
def envMissingLayer : Env := { envAllOk with availLayers := [] }

/-- envAllOk, except surface creation fails (the unwrap panics). -/
def envSurfaceFail : Env := { envAllOk with surfaceCreationOk := false }

/-- envAllOk, except debug-sink attachment fails. -/
def envSinkFail : Env := { envAllOk with sinkCreationOk := false }

/-- envAllOk, except native instance creation fails. -/
def envInstanceFail : Env := { envAllOk with instanceCreationOk := false }

end Sufat

namespace Sufat

/-- C1: for every combination of (extensions missing, layers missing),
the negotiator returns the outcome given by the precedence table:
MissingExtensionAndLayer when both sets are non-empty, MissingLayer when
only the layer set is non-empty, MissingExtension when only the
extension set is non-empty, and proceeds to instance creation when both
are empty; the iff form of each row makes the four outcomes mutually
exclusive. -/
theorem render_context_new_outcome_table (env : Env)
    (h : env.entryLoads = true) :
    ((renderContextNew env).outcome =
        NewOutcome.err RenderContextError.MissingExtensionAndLayer ↔
      (extsMissingList env ≠ [] ∧ layersMissingList env ≠ [])) ∧
    ((renderContextNew env).outcome =
        NewOutcome.err RenderContextError.MissingLayer ↔
      (extsMissingList env = [] ∧ layersMissingList env ≠ [])) ∧
    ((renderContextNew env).outcome =
        NewOutcome.err RenderContextError.MissingExtension ↔
      (extsMissingList env ≠ [] ∧ layersMissingList env = [])) ∧
    (Step.createInstance ∈ (renderContextNew env).steps ↔
      (extsMissingList env = [] ∧ layersMissingList env = [])) := by
  unfold renderContextNew
  rw [h]
  by_cases he : extsMissingList env = [] <;>
    by_cases hl : layersMissingList env = [] <;>
      cases hic : env.instanceCreationOk <;>
        cases hsc : env.surfaceCreationOk <;>
          simp [he, hl, List.length_pos, List.length_eq_zero,
            List.ne_nil_of_length_pos]

/-- C1 witness: the table applied to a concrete environment with a
missing extension and no missing layer yields MissingExtension. -/
theorem render_context_new_outcome_table_witness :
    (renderContextNew envMissingExt).outcome =
      NewOutcome.err RenderContextError.MissingExtension :=
  ((render_context_new_outcome_table envMissingExt rfl).2.2.1).2
    (by constructor <;> decide)

/-- C2: the missing set computed by the negotiator equals exactly
R \ A (R filtered to names absent from A by exact case-sensitive string
match) with enumeration order preserved, independently for extensions
and for layers; a missing-class failure is reported iff the set is
non-empty; and on every missing-class outcome the log trace is exactly
one error-severity line per missing name, extensions first, in
enumeration order. -/
theorem missing_set_is_set_difference (env : Env)
    (h : env.entryLoads = true) :
    (extsMissingList env =
      (requiredExtensions env).filter (fun r => !(env.availExts.contains r))) ∧
    (layersMissingList env =
      debugLayerNames.filter (fun r => !(env.availLayers.contains r))) ∧
    (((renderContextNew env).outcome =
        NewOutcome.err RenderContextError.MissingExtension ∨
      (renderContextNew env).outcome =
        NewOutcome.err RenderContextError.MissingExtensionAndLayer) ↔
      extsMissingList env ≠ []) ∧
    (((renderContextNew env).outcome =
        NewOutcome.err RenderContextError.MissingLayer ∨
      (renderContextNew env).outcome =
        NewOutcome.err RenderContextError.MissingExtensionAndLayer) ↔
      layersMissingList env ≠ []) ∧
    (∀ e, (renderContextNew env).outcome = NewOutcome.err e →
      (e = RenderContextError.MissingExtension ∨
       e = RenderContextError.MissingLayer ∨
       e = RenderContextError.MissingExtensionAndLayer) →
      (renderContextNew env).logs =
        (extsMissingList env).map extMissingLog ++
        (layersMissingList env).map layerMissingLog) := by
  refine ⟨missingNames_eq_filter _ _, missingNames_eq_filter _ _, ?_, ?_, ?_⟩ <;>
    · unfold renderContextNew
      rw [h]
      by_cases he : extsMissingList env = [] <;>
        by_cases hl : layersMissingList env = [] <;>
          cases hic : env.instanceCreationOk <;>
            cases hsc : env.surfaceCreationOk <;>
              simp [he, hl, List.length_pos, List.length_eq_zero]

/-- C2 witness: in a concrete environment missing only the debug-utils
extension, the missing list is the singleton and the log trace is the
single error line for it. -/
theorem missing_set_is_set_difference_witness :
    (renderContextNew envMissingExt).logs =
      (extsMissingList envMissingExt).map extMissingLog ++
      (layersMissingList envMissingExt).map layerMissingLog :=
  (missing_set_is_set_difference envMissingExt rfl).2.2.2.2
    RenderContextError.MissingExtension (by decide) (Or.inl rfl)

/-- C4: teardown invokes the native destroy calls in the order debug
sink, surface, instance, exactly once each, and the sink-destroy call is
skipped entirely when debug_callback is None. -/
theorem drop_destroy_order (ctx : RenderContextM) :
    (ctx.debug_callback.isSome = true →
      renderContextDrop ctx =
        [DestroyCall.destroySink, DestroyCall.destroySurface,
         DestroyCall.destroyInstance]) ∧
    (ctx.debug_callback = none →
      renderContextDrop ctx =
        [DestroyCall.destroySurface, DestroyCall.destroyInstance]) ∧
    (renderContextDrop ctx).count DestroyCall.destroySurface = 1 ∧
    (renderContextDrop ctx).count DestroyCall.destroyInstance = 1 ∧
    (renderContextDrop ctx).count DestroyCall.destroySink =
      (if ctx.debug_callback.isSome then 1 else 0) := by
  obtain ⟨dc⟩ := ctx
  cases dc with
  | none => decide
  | some u => cases u; decide

/-- C4 witness: a context with a sink destroys sink, surface, instance
in that order. -/
theorem drop_destroy_order_witness :
    renderContextDrop ⟨some ()⟩ =
      [DestroyCall.destroySink, DestroyCall.destroySurface,
       DestroyCall.destroyInstance] :=
  (drop_destroy_order ⟨some ()⟩).1 rfl

/-- C5: the computed debug-sink severity mask is monotonic: whenever it
permits a severity level, it permits every more severe level, and every
level it excludes is strictly less severe than every level it
permits. -/
theorem severity_mask_monotonic (f : LevelFilter) (s : NativeSeverity)
    (hp : maskPermits (debugMessengerLogLevel f) s = true) :
    (∀ t : NativeSeverity, s.rank ≤ t.rank →
      maskPermits (debugMessengerLogLevel f) t = true) ∧
    (∀ u : NativeSeverity,
      maskPermits (debugMessengerLogLevel f) u = false → u.rank < s.rank) := by
  revert hp
  cases f <;> cases s <;> decide

/-- C5 witness: with the configured maximum at Info, the permitted set
contains info and everything above it, and excludes only levels below
info. -/
theorem severity_mask_monotonic_witness :
    (∀ t : NativeSeverity, NativeSeverity.rank .info ≤ t.rank →
      maskPermits (debugMessengerLogLevel LevelFilter.info) t = true) ∧
    (∀ u : NativeSeverity,
      maskPermits (debugMessengerLogLevel LevelFilter.info) u = false →
        u.rank < NativeSeverity.rank .info) :=
  severity_mask_monotonic LevelFilter.info NativeSeverity.info (by decide)

/-- C3 counterexample: when surface creation fails after the instance
and the debug messenger were created, the run is a failure (it aborts,
producing no RenderContext), yet the instance and the messenger are
leaked — so not every failure in the sequence is leak-free. -/
theorem construction_all_or_nothing_counterexample :
    (renderContextNew envSurfaceFail).outcome = NewOutcome.aborted ∧
    (renderContextNew envSurfaceFail).leaked =
      [Resource.vkInstance, Resource.debugMessenger] := by
  decide

/-- C3 amended: construction is all-or-nothing for every typed failure
(entry-point load, missing capabilities, native instance creation): no
RenderContext is produced and no native resource is leaked. Surface
creation failure likewise produces no RenderContext, but it aborts the
process and leaks the already-created instance (and the debug messenger
when one was attached). -/
theorem construction_all_or_nothing_amended (env : Env) :
    (∀ e : RenderContextError,
      (renderContextNew env).outcome = NewOutcome.err e →
        (renderContextNew env).leaked = []) ∧
    ((renderContextNew env).outcome = NewOutcome.aborted →
      Resource.vkInstance ∈ (renderContextNew env).leaked) := by
  unfold renderContextNew
  cases hel : env.entryLoads <;>
    by_cases he : extsMissingList env = [] <;>
      by_cases hl : layersMissingList env = [] <;>
        cases hic : env.instanceCreationOk <;>
          cases hsc : env.surfaceCreationOk <;>
            cases hsk : env.sinkCreationOk <;>
              simp [he, hl, List.length_pos, List.length_eq_zero]

/-- C3 amended witness: the typed instance-creation failure leaks
nothing. -/
theorem construction_all_or_nothing_amended_witness :
    (renderContextNew envInstanceFail).leaked = [] :=
  (construction_all_or_nothing_amended envInstanceFail).1
    RenderContextError.InstanceCreationFailed (by decide)

/-- C6: after the instance is created, failure to attach the
debug-message sink is non-fatal: the negotiation still returns a
successfully constructed RenderContext whose debug sink field is None,
rather than any error. -/
theorem sink_attachment_failure_nonfatal (env : Env)
    (h1 : env.entryLoads = true)
    (h2 : extsMissingList env = [])
    (h3 : layersMissingList env = [])
    (h4 : env.instanceCreationOk = true)
    (h5 : env.surfaceCreationOk = true)
    (h6 : env.sinkCreationOk = false) :
    (renderContextNew env).outcome = NewOutcome.ok ⟨none⟩ := by
  unfold renderContextNew
  rw [h1, h4, h5, h6]
  simp [h2, h3]

/-- C6 witness: the concrete all-available environment with a failing
sink attachment still yields an Ok context with no sink. -/
theorem sink_attachment_failure_nonfatal_witness :
    (renderContextNew envSinkFail).outcome = NewOutcome.ok ⟨none⟩ :=
  sink_attachment_failure_nonfatal envSinkFail rfl (by decide) (by decide)
    rfl rfl rfl

/-- C7: the startup self-test submits one synthetic message at each of
the four severities, exercising each of the three message categories,
and routing those four messages through the dispatcher produces exactly
four log entries, each at the corresponding logging level, with
category, identifier and message fields preserved verbatim. -/
theorem self_test_routing :
    testDebugCallbackMessages.length = 4 ∧
    testDebugCallbackMessages.map (fun m => m.severity) =
      [SEVERITY_ERROR, SEVERITY_WARNING, SEVERITY_INFO, SEVERITY_VERBOSE] ∧
    (∀ t : MessageType,
      t ∈ testDebugCallbackMessages.map (fun m => m.mtype)) ∧
    testDebugCallbackMessages.filterMap vulkan_debug_callback =
      [(⟨Level.error, MessageType.general, "testing", 1, "test"⟩, vkFALSE),
       (⟨Level.warn, MessageType.performance, "testing", 1, "test"⟩, vkFALSE),
       (⟨Level.info, MessageType.validation, "testing", 1, "test"⟩, vkFALSE),
       (⟨Level.trace, MessageType.general, "testing", 1, "test"⟩, vkFALSE)] := by
  refine ⟨rfl, by decide, ?_, by decide⟩
  intro t
  cases t <;> decide

/-- C8: the dispatcher handles exactly the four defined severity values;
it aborts (hits the unreachable branch) iff the severity is none of the
four, so on each defined value the abort branch is unreachable. -/
theorem dispatcher_aborts_iff_unknown_severity (m : SubmittedMessage) :
    vulkan_debug_callback m = none ↔
      (m.severity ≠ SEVERITY_ERROR ∧ m.severity ≠ SEVERITY_WARNING ∧
       m.severity ≠ SEVERITY_INFO ∧ m.severity ≠ SEVERITY_VERBOSE) := by
  unfold vulkan_debug_callback
  split_ifs <;> simp_all

/-- C9: the mask computed for maximum level Debug equals the mask for
Info, namely ERROR with WARNING and INFO; the VERBOSE bit is enabled
exactly when the configured maximum level is Trace. -/
theorem debug_filter_mask_equals_info_mask :
    debugMessengerLogLevel LevelFilter.debug =
      debugMessengerLogLevel LevelFilter.info ∧
    debugMessengerLogLevel LevelFilter.info =
      (SEVERITY_ERROR ||| SEVERITY_WARNING ||| SEVERITY_INFO) ∧
    (∀ f : LevelFilter,
      (debugMessengerLogLevel f &&& SEVERITY_VERBOSE ≠ 0) ↔
        f = LevelFilter.trace) := by
  refine ⟨by decide, by decide, ?_⟩
  intro f
  cases f <;> decide

/-- C10: whenever the dispatcher routes a message (any severity among
the four handled values, any category, any callback data), it returns
vk::FALSE, never instructing the native API to abort the call. -/
theorem callback_returns_false (m : SubmittedMessage)
    (entry : RoutedLogEntry) (ret : Nat)
    (h : vulkan_debug_callback m = some (entry, ret)) :
    ret = vkFALSE := by
  unfold vulkan_debug_callback at h
  split_ifs at h <;> simp_all

/-- C10 witness: a routed error-severity message returns vk::FALSE. -/
theorem callback_returns_false_witness : (0 : Nat) = vkFALSE :=
  callback_returns_false
    ⟨SEVERITY_ERROR, MessageType.general, some "a", 0, some "b"⟩
    ⟨Level.error, MessageType.general, "a", 0, "b"⟩ 0 (by decide)

end Sufat
